import Mathlib

/-!
Shallow embedding of the PowerPlatform MCP service core
(src/PowerPlatformService.ts): credential acquisition and caching
(getAccessToken, lines 33-63), the authenticated request primitive
(makeRequest, lines 68-88), the path-building query operations
(lines 94-175), and the query-records tool handler default for
maxRecords (line 464).

Async effects are embedded by explicit state passing: the outcome of
each external call (the MSAL token exchange, the axios HTTP call) is
an input to the embedded function, and the embedded function reports
the calls it issued and the state it left behind.
-/

/-- UTF-8 byte sequence of a character (standard encoding of the
Unicode scalar value). -/
def utf8Bytes (c : Char) : List Nat :=
  let n := c.toNat
  if n < 0x80 then [n]
  else if n < 0x800 then [0xC0 + n / 0x40, 0x80 + n % 0x40]
  else if n < 0x10000 then
    [0xE0 + n / 0x1000, 0x80 + n / 0x40 % 0x40, 0x80 + n % 0x40]
  else
    [0xF0 + n / 0x40000, 0x80 + n / 0x1000 % 0x40, 0x80 + n / 0x40 % 0x40,
     0x80 + n % 0x40]

/-- The bytes JavaScript encodeURIComponent leaves unescaped:
ASCII letters, digits, and the characters - _ . ! ~ * ( ) together with
the apostrophe (0x27). -/
def isUnescapedByte (n : Nat) : Bool :=
  (0x41 ≤ n && n ≤ 0x5A) || (0x61 ≤ n && n ≤ 0x7A) || (0x30 ≤ n && n ≤ 0x39) ||
  n == 0x2D || n == 0x5F || n == 0x2E || n == 0x21 || n == 0x7E || n == 0x2A ||
  n == 0x27 || n == 0x28 || n == 0x29

/-- Uppercase hexadecimal digit character for a value below 16. -/
def hexDigitChar (n : Nat) : Char :=
  if n < 10 then Char.ofNat (0x30 + n) else Char.ofNat (0x41 + n - 10)

/-- Percent-escape of one byte, e.g. 0x20 becomes the three
characters of the %20 sequence. -/
def percentEncodeByte (n : Nat) : List Char :=
  ['%', hexDigitChar (n / 16), hexDigitChar (n % 16)]

/-- JavaScript encodeURIComponent: percent-encodes every UTF-8 byte
outside the unescaped set. -/
def encodeURIComponent (s : String) : String :=
  String.mk (s.toList.flatMap fun c =>
    (utf8Bytes c).flatMap fun b =>
      if isUnescapedByte b then [Char.ofNat b] else percentEncodeByte b)

/-- Whether the first list is an initial segment of the second. -/
def listStartsWith : List Char → List Char → Bool
  | [], _ => true
  | _ :: _, [] => false
  | a :: as, b :: bs => a == b && listStartsWith as bs

/-- Whether the needle occurs as a contiguous subsequence of the hay. -/
def listContainsSeq (needle : List Char) : List Char → Bool
  | [] => needle.isEmpty
  | c :: rest => listStartsWith needle (c :: rest) || listContainsSeq needle rest

/-- Substring occurrence test on strings. -/
def strContainsSeq (hay needle : String) : Bool :=
  listContainsSeq needle.toList hay.toList

/-- Configuration record (PowerPlatformConfig, lines 4-9). -/
structure PowerPlatformConfig where
  organizationUrl : String
  clientId : String
  clientSecret : String
  tenantId : String
deriving DecidableEq

/-- Mutable service state: the cached accessToken (nullable, line 14)
and tokenExpirationTime (line 15). Times are milliseconds since epoch. -/
structure ServiceState where
  accessToken : Option String
  tokenExpirationTime : Int
deriving DecidableEq

/-- State at construction: accessToken = null, tokenExpirationTime = 0. -/
def initialState : ServiceState :=
  { accessToken := none, tokenExpirationTime := 0 }

/-- Result of the MSAL acquireTokenByClientCredential call: the
accessToken field (possibly missing or empty) and the expiresOn
timestamp (possibly null), in milliseconds. -/
structure AuthenticationResult where
  accessToken : Option String
  expiresOn : Option Int
deriving DecidableEq

/-- Outcome of the acquireTokenByClientCredential call: either the
promise rejects, or it resolves with a possibly-null result. -/
inductive AcquireOutcome where
  | throws
  | returns (result : Option AuthenticationResult)
deriving DecidableEq

/-- Error taxonomy: the authentication error thrown by getAccessToken
(line 61) and the API error thrown by makeRequest (line 86), each
carrying its message. -/
inductive ServiceError where
  | authError (message : String)
  | apiError (message : String)
deriving DecidableEq

/-- JavaScript template interpolation of an Error value: the string
starts with the Error: prefix followed by the message. -/
def ServiceError.interpolate : ServiceError → String
  | .authError m => "Error: " ++ m
  | .apiError m => "Error: " ++ m

/-- JavaScript truthiness of a nullable string: false for null and for
the empty string. -/
def strTruthy : Option String → Bool
  | none => false
  | some s => decide (s ≠ "")

/-- The cache guard on line 37: this.accessToken is truthy and
this.tokenExpirationTime > currentTime. -/
def cachedTokenValid (s : ServiceState) (now : Int) : Bool :=
  strTruthy s.accessToken && decide (s.tokenExpirationTime > now)

deriving instance DecidableEq for Except

/-- Observable outcome of one getAccessToken call: the returned token
or thrown error, the state left behind, and how many token exchange
calls were issued. -/
structure TokenCallResult where
  result : Except ServiceError String
  state : ServiceState
  exchangeCalls : Nat
deriving DecidableEq

/-- The refresh path of getAccessToken (lines 41-62): one exchange call;
on a rejected promise, a null result, or a falsy accessToken field the
catch block throws the fixed authentication error and the state is left
untouched; on success the token is stored and, only when expiresOn is
present, the expiration time is set to it minus five minutes. -/
def acquireFresh (s : ServiceState) (acquire : AcquireOutcome) : TokenCallResult :=
  match acquire with
  | .throws =>
    { result := .error (.authError "Authentication failed"), state := s, exchangeCalls := 1 }
  | .returns none =>
    { result := .error (.authError "Authentication failed"), state := s, exchangeCalls := 1 }
  | .returns (some r) =>
    match r.accessToken with
    | none =>
      { result := .error (.authError "Authentication failed"), state := s, exchangeCalls := 1 }
    | some tok =>
      if tok = "" then
        { result := .error (.authError "Authentication failed"), state := s, exchangeCalls := 1 }
      else
        match r.expiresOn with
        | some e =>
          { result := .ok tok
            state := { accessToken := some tok, tokenExpirationTime := e - 5 * 60 * 1000 }
            exchangeCalls := 1 }
        | none =>
          { result := .ok tok
            state := { accessToken := some tok, tokenExpirationTime := s.tokenExpirationTime }
            exchangeCalls := 1 }

/-- getAccessToken (lines 33-63): return the cached token when the
cache guard holds, otherwise run the refresh path. -/
def getAccessToken (s : ServiceState) (now : Int) (acquire : AcquireOutcome) : TokenCallResult :=
  if cachedTokenValid s now then
    { result := .ok (s.accessToken.getD ""), state := s, exchangeCalls := 0 }
  else
    acquireFresh s acquire

/-- Cache states the code can produce: a cached token is never the
empty string, because the refresh path stores a token only after the
truthiness check on line 47 passed. -/
def WellFormed (s : ServiceState) : Prop := s.accessToken ≠ some ""

/-- One outbound HTTP request as built by makeRequest (lines 72-81). -/
structure HttpRequest where
  method : String
  url : String
  headers : List (String × String)
deriving DecidableEq

/-- The axios request built on lines 72-81 for a given endpoint and
bearer token. -/
def buildRequest (cfg : PowerPlatformConfig) (endpoint token : String) : HttpRequest :=
  { method := "GET"
    url := cfg.organizationUrl ++ "/" ++ endpoint
    headers :=
      [("Authorization", "Bearer " ++ token),
       ("Accept", "application/json"),
       ("OData-MaxVersion", "4.0"),
       ("OData-Version", "4.0")] }

/-- Outcome of the axios call: rejection (transport failure or non-2xx
response, interpolated to a message string) or a parsed response body. -/
inductive HttpOutcome (T : Type) where
  | throws (message : String)
  | succeeds (data : T)

/-- Observable outcome of one makeRequest call: the returned data or
thrown error, the state left behind, the number of token exchange
calls, and the HTTP requests issued. -/
structure RequestCallResult (T : Type) where
  result : Except ServiceError T
  state : ServiceState
  exchangeCalls : Nat
  httpRequests : List HttpRequest

/-- makeRequest (lines 68-88): obtain a token, issue the GET, return
response.data; the catch block on lines 84-87 encloses the
getAccessToken call as well as the axios call, so every failure is
rethrown wrapped in the API error message. -/
def makeRequest {T : Type} (cfg : PowerPlatformConfig) (endpoint : String)
    (s : ServiceState) (now : Int) (acquire : AcquireOutcome)
    (http : HttpOutcome T) : RequestCallResult T :=
  let tc := getAccessToken s now acquire
  match tc.result with
  | .error e =>
    { result := .error (.apiError ("PowerPlatform API request failed: " ++ e.interpolate))
      state := tc.state
      exchangeCalls := tc.exchangeCalls
      httpRequests := [] }
  | .ok token =>
    match http with
    | .throws msg =>
      { result := .error (.apiError ("PowerPlatform API request failed: " ++ msg))
        state := tc.state
        exchangeCalls := tc.exchangeCalls
        httpRequests := [buildRequest cfg endpoint token] }
    | .succeeds d =>
      { result := .ok d
        state := tc.state
        exchangeCalls := tc.exchangeCalls
        httpRequests := [buildRequest cfg endpoint token] }

/-- Whether a call result is the authentication error (unwrapped). -/
def resultIsAuthError {T : Type} : Except ServiceError T → Bool
  | .error (.authError _) => true
  | _ => false

/-- Relative path built by getEntityMetadata (line 95). -/
def getEntityMetadataPath (entityName : String) : String :=
  "api/data/v9.2/EntityDefinitions(LogicalName='" ++ entityName ++ "')"

/-- getEntityMetadata (lines 94-96): delegate to makeRequest with the
metadata path. -/
def getEntityMetadata {T : Type} (cfg : PowerPlatformConfig) (entityName : String)
    (s : ServiceState) (now : Int) (acquire : AcquireOutcome)
    (http : HttpOutcome T) : RequestCallResult T :=
  makeRequest cfg (getEntityMetadataPath entityName) s now acquire http

/-- Relative path built by getEntityOneToManyRelationships (line 120). -/
def getEntityOneToManyRelationshipsPath (entityName : String) : String :=
  "api/data/v9.2/EntityDefinitions(LogicalName='" ++ entityName ++ "')/OneToManyRelationships"

/-- Relative path built by getEntityManyToManyRelationships (line 128). -/
def getEntityManyToManyRelationshipsPath (entityName : String) : String :=
  "api/data/v9.2/EntityDefinitions(LogicalName='" ++ entityName ++ "')/ManyToManyRelationships"

/-- The result object built on lines 141-144. -/
structure EntityRelationships (A : Type) where
  oneToMany : A
  manyToMany : A
deriving DecidableEq

/-- Observable outcome of getEntityRelationships: the combined result
(or the error of a failed branch) and the relative paths issued. -/
structure RelationshipsCallResult (A : Type) where
  result : Except ServiceError (EntityRelationships A)
  issuedPaths : List String

/-- getEntityRelationships (lines 135-145): start both relationship
requests, await both with Promise.all semantics (any rejection rejects
the whole, a rejection of the first-listed promise surfacing when it
fails), and on success return the pair. The fetch argument gives the
settled outcome of the request for each relative path. -/
def getEntityRelationships {A : Type} (entityName : String)
    (fetch : String → Except ServiceError A) : RelationshipsCallResult A :=
  let r1 := fetch (getEntityOneToManyRelationshipsPath entityName)
  let r2 := fetch (getEntityManyToManyRelationshipsPath entityName)
  { issuedPaths :=
      [getEntityOneToManyRelationshipsPath entityName,
       getEntityManyToManyRelationshipsPath entityName]
    result :=
      match r1, r2 with
      | .ok a, .ok b => .ok { oneToMany := a, manyToMany := b }
      | .error e, _ => .error e
      | .ok _, .error e => .error e }

/-- Relative path built by queryRecords (line 174): the plural entity
name interpolated raw, the filter percent-encoded, the row cap
appended; the maxRecords parameter defaults to 50 (line 173). -/
def queryRecordsPath (entityNamePlural filter : String) (maxRecords : Int := 50) : String :=
  "api/data/v9.2/" ++ entityNamePlural ++ "?$filter=" ++ encodeURIComponent filter ++
    "&$top=" ++ toString maxRecords

/-- The maxRecords argument resolution in the query-records tool
handler (line 464): maxRecords or 50, the JavaScript falsy-or, applied
to the optional number argument. -/
def queryRecordsToolMaxRecords (maxRecords : Option Int) : Int :=
  match maxRecords with
  | none => 50
  | some n => if n = 0 then 50 else n

/-- A concrete configuration used to instantiate theorems. -/
def cfg0 : PowerPlatformConfig :=
  { organizationUrl := "https://org.crm.dynamics.com"
    clientId := "client-id"
    clientSecret := "client-secret"
    tenantId := "tenant-id" }

/-- A concrete state holding an unexpired cached token. -/
def validState : ServiceState :=
  { accessToken := some "cached-token", tokenExpirationTime := 1000 }

/-- A concrete request environment in which the one-to-many
relationship request fails while the many-to-many one succeeds. -/
def fetchFail1 : String → Except ServiceError Nat := fun p =>
  if p = getEntityOneToManyRelationshipsPath "account" then
    .error (.apiError "one-to-many failed")
  else .ok 7

/-- Helper: the refresh path always issues exactly one exchange call. -/
theorem acquireFresh_exchangeCalls (s : ServiceState) (a : AcquireOutcome) :
    (acquireFresh s a).exchangeCalls = 1 := by
  cases a with
  | throws => rfl
  | returns o =>
    cases o with
    | none => rfl
    | some r =>
      cases hr : r.accessToken with
      | none => simp [acquireFresh, hr]
      | some tok =>
        by_cases ht : tok = "" <;> cases hexp : r.expiresOn <;>
          simp [acquireFresh, hr, ht, hexp]

/-- Helper: when the refresh path fails, the state is untouched and
the error is the fixed authentication error. -/
theorem acquireFresh_error (s : ServiceState) (a : AcquireOutcome) (e : ServiceError)
    (h : (acquireFresh s a).result = .error e) :
    (acquireFresh s a).state = s ∧ e = .authError "Authentication failed" := by
  cases a with
  | throws =>
    simp [acquireFresh] at h ⊢
    exact h.symm
  | returns o =>
    cases o with
    | none =>
      simp [acquireFresh] at h ⊢
      exact h.symm
    | some r =>
      cases hr : r.accessToken with
      | none =>
        simp [acquireFresh, hr] at h ⊢
        exact h.symm
      | some tok =>
        by_cases ht : tok = ""
        · simp [acquireFresh, hr, ht] at h ⊢
          exact h.symm
        · cases hexp : r.expiresOn <;> simp [acquireFresh, hr, ht, hexp] at h

/-- Helper: once the cache guard fails at some time, it also fails at
any later time. -/
theorem cachedTokenValid_mono (s : ServiceState) {now now2 : Int} (hle : now ≤ now2)
    (hv : cachedTokenValid s now = false) : cachedTokenValid s now2 = false := by
  unfold cachedTokenValid at hv ⊢
  cases hst : strTruthy s.accessToken with
  | false => simp [hst]
  | true =>
    simp [hst] at hv ⊢
    omega

/-- Helper: the initial state has no cached token, hence no cached
empty token. -/
theorem wellFormed_initialState : WellFormed initialState := by
  intro h
  simp [initialState] at h

/-- Helper: getAccessToken never caches an empty token, so every
reachable cache state is well formed. -/
theorem getAccessToken_preserves_wellFormed (s : ServiceState) (now : Int)
    (acquire : AcquireOutcome) (h : WellFormed s) :
    WellFormed (getAccessToken s now acquire).state := by
  by_cases hv : cachedTokenValid s now
  · simpa [getAccessToken, hv] using h
  · have hv' : cachedTokenValid s now = false := by
      cases hb : cachedTokenValid s now
      · rfl
      · exact absurd hb hv
    rw [getAccessToken, if_neg (by simp [hv'])]
    cases acquire with
    | throws => exact h
    | returns o =>
      cases o with
      | none => exact h
      | some r =>
        cases hr : r.accessToken with
        | none => simpa [acquireFresh, hr] using h
        | some tok =>
          by_cases ht : tok = ""
          · simpa [acquireFresh, hr, ht] using h
          · cases hexp : r.expiresOn <;>
              simp [WellFormed, acquireFresh, hr, ht, hexp]

/-- C2: for every well-formed cache state, if a cached token exists and
its expiration time is strictly later than the current time then
getAccessToken returns that cached token with zero exchange calls and
an unchanged state; otherwise (no cached token, or expiration at or
before now) it issues exactly one client-credential exchange and, when
the exchange succeeds with a nonempty token, returns that new token. -/
theorem getAccessToken_cache_rule (s : ServiceState) (now : Int) (acquire : AcquireOutcome)
    (hwf : WellFormed s) :
    (∀ t, s.accessToken = some t → s.tokenExpirationTime > now →
      (getAccessToken s now acquire).result = .ok t ∧
      (getAccessToken s now acquire).exchangeCalls = 0 ∧
      (getAccessToken s now acquire).state = s) ∧
    ((s.accessToken = none ∨ s.tokenExpirationTime ≤ now) →
      (getAccessToken s now acquire).exchangeCalls = 1 ∧
      ∀ r tok, acquire = .returns (some r) → r.accessToken = some tok → tok ≠ "" →
        (getAccessToken s now acquire).result = .ok tok) := by
  constructor
  · intro t ht hexp
    have htne : t ≠ "" := by
      intro hcontra
      exact hwf (by rw [ht, hcontra])
    have hvalid : cachedTokenValid s now = true := by
      simp [cachedTokenValid, strTruthy, ht, htne, hexp]
    refine ⟨?_, ?_, ?_⟩ <;> simp [getAccessToken, hvalid, ht]
  · intro hcase
    have hvalid : cachedTokenValid s now = false := by
      rcases hcase with hnone | hle
      · simp [cachedTokenValid, strTruthy, hnone]
      · simp [cachedTokenValid]
        intro _
        omega
    constructor
    · rw [getAccessToken, if_neg (by simp [hvalid])]
      exact acquireFresh_exchangeCalls s acquire
    · intro r tok hacq htok htokne
      subst hacq
      rw [getAccessToken, if_neg (by simp [hvalid])]
      cases hexp : r.expiresOn <;> simp [acquireFresh, htok, htokne, hexp]

/-- C2 witness: a concrete cache hit returns the cached token with no
exchange, and a concrete refresh issues one exchange and returns the
fresh token. -/
theorem getAccessToken_cache_rule_witness :
    ((getAccessToken validState 0 .throws).result = .ok "cached-token" ∧
      (getAccessToken validState 0 .throws).exchangeCalls = 0 ∧
      (getAccessToken validState 0 .throws).state = validState) ∧
    ((getAccessToken initialState 0
        (.returns (some { accessToken := some "fresh-token", expiresOn := some 1000000 }))).exchangeCalls = 1 ∧
      (getAccessToken initialState 0
        (.returns (some { accessToken := some "fresh-token", expiresOn := some 1000000 }))).result = .ok "fresh-token") :=
  ⟨(getAccessToken_cache_rule validState 0 .throws
      (by unfold WellFormed; decide)).1 "cached-token" rfl (by decide),
   ((getAccessToken_cache_rule initialState 0
      (.returns (some { accessToken := some "fresh-token", expiresOn := some 1000000 }))
      (by unfold WellFormed; decide)).2 (Or.inl rfl)).1,
   ((getAccessToken_cache_rule initialState 0
      (.returns (some { accessToken := some "fresh-token", expiresOn := some 1000000 }))
      (by unfold WellFormed; decide)).2 (Or.inl rfl)).2
     { accessToken := some "fresh-token", expiresOn := some 1000000 } "fresh-token"
     rfl rfl (by decide)⟩

/-- C3 counterexample: a successful exchange whose result carries no
expiresOn value updates the stored token but keeps the previous
expiration time, so the Credential is not replaced wholesale. -/
theorem getAccessToken_partial_update_counterexample :
    (getAccessToken { accessToken := some "old", tokenExpirationTime := 999 } 1000
      (.returns (some { accessToken := some "new", expiresOn := none }))).result = .ok "new" ∧
    (getAccessToken { accessToken := some "old", tokenExpirationTime := 999 } 1000
      (.returns (some { accessToken := some "new", expiresOn := none }))).state =
      { accessToken := some "new", tokenExpirationTime := 999 } := by decide

/-- C3 amended: on a successful exchange in which the authority reports
an expiry, token and expiration time are updated together with the
expiration set to the reported expiry minus 300000 ms; when the
authority reports no expiry, only the token is updated and the previous
expiration time is retained. -/
theorem getAccessToken_refresh_update (s : ServiceState) (now : Int) (tok : String)
    (e : Int) (hv : cachedTokenValid s now = false) (ht : tok ≠ "") :
    ((getAccessToken s now
        (.returns (some { accessToken := some tok, expiresOn := some e }))).result = .ok tok ∧
      (getAccessToken s now
        (.returns (some { accessToken := some tok, expiresOn := some e }))).state =
        { accessToken := some tok, tokenExpirationTime := e - 300000 }) ∧
    ((getAccessToken s now
        (.returns (some { accessToken := some tok, expiresOn := none }))).result = .ok tok ∧
      (getAccessToken s now
        (.returns (some { accessToken := some tok, expiresOn := none }))).state =
        { accessToken := some tok, tokenExpirationTime := s.tokenExpirationTime }) := by
  rw [getAccessToken, getAccessToken, if_neg (by simp [hv]), if_neg (by simp [hv])]
  refine ⟨⟨?_, ?_⟩, ?_, ?_⟩ <;> simp [acquireFresh, ht]

/-- C3 amended witness: concrete refreshes with and without a reported
expiry. -/
theorem getAccessToken_refresh_update_witness :
    ((getAccessToken initialState 0
        (.returns (some { accessToken := some "fresh-token", expiresOn := some 1000000 }))).state =
      { accessToken := some "fresh-token", tokenExpirationTime := 1000000 - 300000 }) ∧
    ((getAccessToken initialState 0
        (.returns (some { accessToken := some "fresh-token", expiresOn := none }))).state =
      { accessToken := some "fresh-token", tokenExpirationTime := initialState.tokenExpirationTime }) :=
  ⟨(getAccessToken_refresh_update initialState 0 "fresh-token" 1000000 (by decide) (by decide)).1.2,
   (getAccessToken_refresh_update initialState 0 "fresh-token" 1000000 (by decide) (by decide)).2.2⟩

/-- C4: every failing getAccessToken call leaves the cache exactly as
it was, fails with the authentication error, and a later call (at the
same or a later time, with any exchange outcome) performs the exchange
again. -/
theorem getAccessToken_failure_preserves_cache (s : ServiceState) (now : Int)
    (acquire : AcquireOutcome) (e : ServiceError)
    (h : (getAccessToken s now acquire).result = .error e) :
    (getAccessToken s now acquire).state = s ∧
    e = .authError "Authentication failed" ∧
    ∀ now2 acquire2, now ≤ now2 →
      (getAccessToken s now2 acquire2).exchangeCalls = 1 := by
  have hvalid : cachedTokenValid s now = false := by
    cases hb : cachedTokenValid s now
    · rfl
    · simp [getAccessToken, hb] at h
  rw [getAccessToken, if_neg (by simp [hvalid])] at h
  obtain ⟨hstate, he⟩ := acquireFresh_error s acquire e h
  refine ⟨?_, he, ?_⟩
  · rw [getAccessToken, if_neg (by simp [hvalid])]
    exact hstate
  · intro now2 acquire2 hle
    have h2 : cachedTokenValid s now2 = false := cachedTokenValid_mono s hle hvalid
    rw [getAccessToken, if_neg (by simp [h2])]
    exact acquireFresh_exchangeCalls s acquire2

/-- C4 witness: a concrete failed exchange leaves the empty cache in
place and a later call issues the exchange again. -/
theorem getAccessToken_failure_preserves_cache_witness :
    (getAccessToken initialState 0 .throws).state = initialState ∧
    (getAccessToken initialState 5 (.returns none)).exchangeCalls = 1 :=
  ⟨(getAccessToken_failure_preserves_cache initialState 0 .throws
      (.authError "Authentication failed") (by decide)).1,
   (getAccessToken_failure_preserves_cache initialState 0 .throws
      (.authError "Authentication failed") (by decide)).2.2 5 (.returns none) (by decide)⟩

/-- C10: whenever the cache guard does not hold, every failing cause of
the token exchange (rejected promise, null result, falsy accessToken
field) surfaces the same fixed authentication-failed error, so the
causes are indistinguishable from the thrown error alone. -/
theorem getAccessToken_fixed_auth_message (s : ServiceState) (now : Int)
    (h : cachedTokenValid s now = false) :
    (getAccessToken s now .throws).result = .error (.authError "Authentication failed") ∧
    (getAccessToken s now (.returns none)).result = .error (.authError "Authentication failed") ∧
    ∀ r : AuthenticationResult, strTruthy r.accessToken = false →
      (getAccessToken s now (.returns (some r))).result =
        .error (.authError "Authentication failed") := by
  refine ⟨?_, ?_, ?_⟩
  · simp [getAccessToken, h, acquireFresh]
  · simp [getAccessToken, h, acquireFresh]
  · intro r hr
    cases hra : r.accessToken with
    | none => simp [getAccessToken, h, acquireFresh, hra]
    | some tok =>
      have htok : tok = "" := by
        by_contra hcontra
        simp [strTruthy, hra, hcontra] at hr
      simp [getAccessToken, h, acquireFresh, hra, htok]

/-- C10 witness: the three concrete failure causes all yield the same
error value. -/
theorem getAccessToken_fixed_auth_message_witness :
    (getAccessToken initialState 0 .throws).result = .error (.authError "Authentication failed") ∧
    (getAccessToken initialState 0 (.returns none)).result =
      .error (.authError "Authentication failed") ∧
    (getAccessToken initialState 0
      (.returns (some { accessToken := none, expiresOn := none }))).result =
      .error (.authError "Authentication failed") :=
  ⟨(getAccessToken_fixed_auth_message initialState 0 (by decide)).1,
   (getAccessToken_fixed_auth_message initialState 0 (by decide)).2.1,
   (getAccessToken_fixed_auth_message initialState 0 (by decide)).2.2
     { accessToken := none, expiresOn := none } (by decide)⟩

/-- C1 counterexample: when token acquisition fails, makeRequest does
not propagate the authentication error unchanged; its catch block wraps
it in the API error message. -/
theorem makeRequest_auth_failure_wrapped_counterexample :
    (makeRequest cfg0 "api/data/v9.2/accounts" initialState 0 .throws
      (HttpOutcome.succeeds "ok")).result =
      .error (.apiError "PowerPlatform API request failed: Error: Authentication failed") ∧
    resultIsAuthError ((makeRequest cfg0 "api/data/v9.2/accounts" initialState 0 .throws
      (HttpOutcome.succeeds "ok")).result) = false := by decide

/-- C1 amended: every failure of makeRequest, whether of token
acquisition or of the HTTP call, surfaces as the API error wrapping the
string form of the underlying failure; in particular the authentication
error never propagates unwrapped. -/
theorem makeRequest_wraps_all_failures {T : Type} (cfg : PowerPlatformConfig)
    (endpoint : String) (s : ServiceState) (now : Int) (acquire : AcquireOutcome)
    (http : HttpOutcome T) :
    (∀ e, (getAccessToken s now acquire).result = .error e →
      (makeRequest cfg endpoint s now acquire http).result =
        .error (.apiError ("PowerPlatform API request failed: " ++ e.interpolate))) ∧
    (∀ tok msg, (getAccessToken s now acquire).result = .ok tok →
      http = HttpOutcome.throws msg →
      (makeRequest cfg endpoint s now acquire http).result =
        .error (.apiError ("PowerPlatform API request failed: " ++ msg))) ∧
    resultIsAuthError (makeRequest cfg endpoint s now acquire http).result = false := by
  refine ⟨?_, ?_, ?_⟩
  · intro e he
    simp [makeRequest, he]
  · intro tok msg htok hhttp
    subst hhttp
    simp [makeRequest, htok]
  · cases hres : (getAccessToken s now acquire).result with
    | error e => simp [makeRequest, hres, resultIsAuthError]
    | ok tok =>
      cases http with
      | throws msg => simp [makeRequest, hres, resultIsAuthError]
      | succeeds d => simp [makeRequest, hres, resultIsAuthError]

/-- C1 amended witness: a concrete failed token acquisition surfaces as
the wrapped API error. -/
theorem makeRequest_wraps_all_failures_witness :
    (makeRequest cfg0 "api/data/v9.2/accounts" initialState 0 AcquireOutcome.throws
      (HttpOutcome.succeeds "ok")).result =
      .error (.apiError ("PowerPlatform API request failed: " ++
        (ServiceError.authError "Authentication failed").interpolate)) :=
  (makeRequest_wraps_all_failures cfg0 "api/data/v9.2/accounts" initialState 0 .throws
    (HttpOutcome.succeeds "ok")).1 (.authError "Authentication failed") (by decide)

/-- C7: when getAccessToken yields a token, every outbound request
issued by makeRequest is a GET to the base URL joined with the relative
path, carrying the Authorization header with that very token plus the
Accept and OData version headers. -/
theorem makeRequest_issues_authorized_get {T : Type} (cfg : PowerPlatformConfig)
    (endpoint : String) (s : ServiceState) (now : Int) (acquire : AcquireOutcome)
    (http : HttpOutcome T) (tok : String)
    (htok : (getAccessToken s now acquire).result = .ok tok) :
    ∀ req ∈ (makeRequest cfg endpoint s now acquire http).httpRequests,
      req.method = "GET" ∧
      req.url = cfg.organizationUrl ++ "/" ++ endpoint ∧
      req.headers = [("Authorization", "Bearer " ++ tok),
                     ("Accept", "application/json"),
                     ("OData-MaxVersion", "4.0"),
                     ("OData-Version", "4.0")] := by
  intro req hreq
  cases http with
  | throws msg =>
    simp [makeRequest, htok] at hreq
    subst hreq
    exact ⟨rfl, rfl, rfl⟩
  | succeeds d =>
    simp [makeRequest, htok] at hreq
    subst hreq
    exact ⟨rfl, rfl, rfl⟩

/-- C7 witness: the concrete request issued under a valid cached token
carries exactly the required method, URL and headers. -/
theorem makeRequest_issues_authorized_get_witness :
    (buildRequest cfg0 "api/data/v9.2/accounts" "cached-token").method = "GET" ∧
    (buildRequest cfg0 "api/data/v9.2/accounts" "cached-token").url =
      cfg0.organizationUrl ++ "/" ++ "api/data/v9.2/accounts" ∧
    (buildRequest cfg0 "api/data/v9.2/accounts" "cached-token").headers =
      [("Authorization", "Bearer " ++ "cached-token"),
       ("Accept", "application/json"),
       ("OData-MaxVersion", "4.0"),
       ("OData-Version", "4.0")] :=
  makeRequest_issues_authorized_get cfg0 "api/data/v9.2/accounts" validState 0 .throws
    (HttpOutcome.succeeds "data") "cached-token" (by decide)
    (buildRequest cfg0 "api/data/v9.2/accounts" "cached-token") (by decide)

/-- C5: getEntityRelationships issues both relationship requests, fails
as a whole whenever either request fails (no partial result), and on
success returns exactly the record holding the two responses. -/
theorem getEntityRelationships_spec {A : Type} (entityName : String)
    (fetch : String → Except ServiceError A) :
    (getEntityRelationships entityName fetch).issuedPaths =
      [getEntityOneToManyRelationshipsPath entityName,
       getEntityManyToManyRelationshipsPath entityName] ∧
    (∀ e, fetch (getEntityOneToManyRelationshipsPath entityName) = .error e →
      (getEntityRelationships entityName fetch).result = .error e) ∧
    (∀ a e, fetch (getEntityOneToManyRelationshipsPath entityName) = .ok a →
      fetch (getEntityManyToManyRelationshipsPath entityName) = .error e →
      (getEntityRelationships entityName fetch).result = .error e) ∧
    (∀ a b, fetch (getEntityOneToManyRelationshipsPath entityName) = .ok a →
      fetch (getEntityManyToManyRelationshipsPath entityName) = .ok b →
      (getEntityRelationships entityName fetch).result =
        .ok { oneToMany := a, manyToMany := b }) := by
  refine ⟨rfl, ?_, ?_, ?_⟩
  · intro e he
    simp [getEntityRelationships, he]
  · intro a e ha he
    simp [getEntityRelationships, ha, he]
  · intro a b ha hb
    simp [getEntityRelationships, ha, hb]

/-- C5 witness: with a failing one-to-many request and a succeeding
many-to-many request, the combined operation fails as a whole. -/
theorem getEntityRelationships_spec_witness :
    (getEntityRelationships "account" fetchFail1).result =
      .error (.apiError "one-to-many failed") :=
  (getEntityRelationships_spec "account" fetchFail1).2.1
    (.apiError "one-to-many failed") (by decide)

/-- C6 counterexample: the example query does not contain the %27
encoding of the apostrophe claimed by the spec, because
encodeURIComponent leaves apostrophes unescaped. -/
theorem queryRecordsPath_apostrophe_counterexample :
    queryRecordsPath "contacts" "name eq 'test'" 10 =
      "api/data/v9.2/contacts?$filter=name%20eq%20'test'&$top=10" ∧
    strContainsSeq (queryRecordsPath "contacts" "name eq 'test'" 10) "%27" = false ∧
    strContainsSeq (queryRecordsPath "contacts" "name eq 'test'" 10)
      "$filter=name%20eq%20%27test%27" = false ∧
    strContainsSeq (queryRecordsPath "contacts" "name eq 'test'" 10) "$top=10" = true := by
  decide

/-- C6 amended: queryRecords interpolates the plural entity name
without escaping, percent-encodes only the filter into the query
string (with encodeURIComponent, which keeps apostrophes unescaped, so
the example filter encodes to name%20eq%20'test'), appends the row cap,
and the omitted row cap defaults to 50. -/
theorem queryRecordsPath_encoding (entityNamePlural fltr : String) (maxRecords : Int) :
    queryRecordsPath entityNamePlural fltr maxRecords =
      "api/data/v9.2/" ++ entityNamePlural ++ "?$filter=" ++
        encodeURIComponent fltr ++ "&$top=" ++ toString maxRecords ∧
    queryRecordsPath entityNamePlural fltr = queryRecordsPath entityNamePlural fltr 50 ∧
    queryRecordsPath "contacts" "name eq 'test'" 10 =
      "api/data/v9.2/contacts?$filter=name%20eq%20'test'&$top=10" ∧
    encodeURIComponent "name eq 'test'" = "name%20eq%20'test'" :=
  ⟨rfl, rfl, by decide, by decide⟩

/-- C8: getEntityMetadata delegates to makeRequest with the relative
path built from the entity logical name, and the concrete input account
yields the expected path. -/
theorem getEntityMetadataPath_spec :
    getEntityMetadataPath "account" =
      "api/data/v9.2/EntityDefinitions(LogicalName='account')" ∧
    (∀ entityName, getEntityMetadataPath entityName =
      "api/data/v9.2/EntityDefinitions(LogicalName='" ++ entityName ++ "')") ∧
    (∀ (T : Type) (cfg : PowerPlatformConfig) (entityName : String) (s : ServiceState)
      (now : Int) (acquire : AcquireOutcome) (http : HttpOutcome T),
      getEntityMetadata cfg entityName s now acquire http =
        makeRequest cfg (getEntityMetadataPath entityName) s now acquire http) :=
  ⟨by decide, fun _ => rfl, fun _ _ _ _ _ _ _ => rfl⟩

/-- C9: the query-records tool handler replaces an omitted or zero
maxRecords argument by 50, passes any nonzero value through, and can
never hand a row cap of zero to queryRecords. -/
theorem queryRecordsToolMaxRecords_spec :
    queryRecordsToolMaxRecords none = 50 ∧
    queryRecordsToolMaxRecords (some 0) = 50 ∧
    (∀ n : Int, n ≠ 0 → queryRecordsToolMaxRecords (some n) = n) ∧
    (∀ arg : Option Int, queryRecordsToolMaxRecords arg ≠ 0) := by
  refine ⟨rfl, rfl, ?_, ?_⟩
  · intro n hn
    simp [queryRecordsToolMaxRecords, hn]
  · intro arg
    cases arg with
    | none => decide
    | some n =>
      by_cases hn : n = 0 <;> simp [queryRecordsToolMaxRecords, hn]

/-- C9 witness: a nonzero cap passes through and the resolved cap for
the zero argument is nonzero. -/
theorem queryRecordsToolMaxRecords_spec_witness :
    queryRecordsToolMaxRecords (some 10) = 10 ∧
    queryRecordsToolMaxRecords (some 0) ≠ 0 :=
  ⟨queryRecordsToolMaxRecords_spec.2.2.1 10 (by decide),
   queryRecordsToolMaxRecords_spec.2.2.2 (some 0)⟩
